import Mathlib

/-!
Verification of the progress-to-plant-stage mapper of the
spaardoel-plant-tracker repository, embedded from
`src/app/components/plant-visualization.tsx`.

Percentages are JavaScript numbers used only in comparisons,
multiplications by constants and `Math.floor`; they are embedded as
rationals (ℚ). Rendered element lists (petals, leaves, sparkles, stem,
fruit) are embedded as the data the JSX produces: `Array.from({length: n},
(_, i) => ...)` becomes a map over `List.range`, and conditional JSX
`cond && elem` becomes an `if` producing the element list or `[]`.
-/

namespace PlantViz

/-- The discrete growth stage, the string literals returned by `getStage`. -/
inductive Stage : Type
  | seed
  | sprout
  | small
  | medium
  | large
  | flowering
  | fruiting
deriving DecidableEq, Repr

/-- `getStage` from plant-visualization.tsx: the chain of
`if (percentage < t) return s;` statements. -/
def getStage (percentage : ℚ) : Stage :=
  if percentage < 10 then Stage.seed
  else if percentage < 25 then Stage.sprout
  else if percentage < 50 then Stage.small
  else if percentage < 75 then Stage.medium
  else if percentage < 95 then Stage.large
  else if percentage < 100 then Stage.flowering
  else Stage.fruiting

/-- `getPlantHeight`: `Math.max(progressPercentage * 0.8, 5)`. -/
def getPlantHeight (progressPercentage : ℚ) : ℚ :=
  max (progressPercentage * (8/10)) 5

/-- `stemHeight = Math.max(plantHeight * 0.6, 10)`. -/
def stemHeight (progressPercentage : ℚ) : ℚ :=
  max (getPlantHeight progressPercentage * (6/10)) 10

/-- `leafCount = Math.floor(progressPercentage / 20)` (an integer, possibly
negative for negative percentages). -/
def leafCount (progressPercentage : ℚ) : ℤ :=
  ⌊progressPercentage / 20⌋

/-- `getPlantColor`: the `switch (plantType)` color table. -/
def getPlantColor (plantType : String) : String :=
  if plantType = "rose" then "#ff6b9d"
  else if plantType = "tulip" then "#c44569"
  else if plantType = "daisy" then "#f8b500"
  else "#ffd700"

/-- The component's `plantType` prop defaults to "sunflower" when omitted. -/
def plantColorOfProp (plantType : Option String) : String :=
  getPlantColor (plantType.getD "sunflower")

/-- Numeric index of a stage in the order seed < sprout < small < medium <
large < flowering < fruiting. -/
def stageIdx : Stage → ℕ
  | Stage.seed => 0
  | Stage.sprout => 1
  | Stage.small => 2
  | Stage.medium => 3
  | Stage.large => 4
  | Stage.flowering => 5
  | Stage.fruiting => 6

/-- The petal angles (degrees) rendered by the JSX block
`(stage === 'flowering' || stage === 'fruiting') && Array.from({length: 8},
(_, i) => ... rotate(i * 45) ...)`: one petal per `i`, at angle `i * 45`. -/
def petalAngles (stage : Stage) : List ℕ :=
  if stage = Stage.flowering ∨ stage = Stage.fruiting then
    (List.range 8).map (fun i => i * 45)
  else []

/-- Whether the fruit marker circle `stage === 'fruiting' && <motion.circle ...>`
is rendered. -/
def fruitRendered (stage : Stage) : Bool :=
  if stage = Stage.fruiting then true else false

/-- Whether the stem rect `stage !== 'seed' && <motion.rect ...>` is rendered. -/
def stemRendered (stage : Stage) : Bool :=
  if stage = Stage.seed then false else true

/-- The leaf elements rendered by
`Array.from({length: leafCount}, (_, i) => ...)`: `Array.from` with a
negative or zero length yields an empty array, so the indices are
`0 .. toNat(leafCount) - 1`. -/
def renderedLeaves (progressPercentage : ℚ) : List ℕ :=
  List.range (leafCount progressPercentage).toNat

/-- The milestone sparkle circles rendered by
`progressPercentage >= 25 && Array.from({length: 3}, (_, i) => ...)`. -/
def sparkles (progressPercentage : ℚ) : List ℕ :=
  if 25 ≤ progressPercentage then List.range 3 else []

/-- All outputs of the mapper for one evaluation of the component body:
stage and the derived visual parameters, as computed (in this order) in
`PlantVisualization`. -/
structure RenderParams where
  stage : Stage
  plantHeight : ℚ
  plantColor : String
  stemH : ℚ
  leaves : ℤ
deriving DecidableEq, Repr

/-- The mapper as a single total function of the component's two data
props, with `plantType` defaulting to "sunflower" when omitted. -/
def mapper (progressPercentage : ℚ) (plantType : Option String) : RenderParams :=
  { stage := getStage progressPercentage
    plantHeight := getPlantHeight progressPercentage
    plantColor := plantColorOfProp plantType
    stemH := stemHeight progressPercentage
    leaves := leafCount progressPercentage }

/-- C1: `getStage` follows the left-inclusive threshold table, each band's
upper bound exclusive: percentage < 10 yields seed, [10,25) sprout,
[25,50) small, [50,75) medium, [75,95) large, [95,100) flowering, and
percentage ≥ 100 fruiting; in particular getStage 25 = small,
getStage 95 = flowering and getStage 100 = fruiting. -/
theorem getStage_threshold_table :
    (∀ p : ℚ, p < 10 → getStage p = Stage.seed) ∧
    (∀ p : ℚ, 10 ≤ p → p < 25 → getStage p = Stage.sprout) ∧
    (∀ p : ℚ, 25 ≤ p → p < 50 → getStage p = Stage.small) ∧
    (∀ p : ℚ, 50 ≤ p → p < 75 → getStage p = Stage.medium) ∧
    (∀ p : ℚ, 75 ≤ p → p < 95 → getStage p = Stage.large) ∧
    (∀ p : ℚ, 95 ≤ p → p < 100 → getStage p = Stage.flowering) ∧
    (∀ p : ℚ, 100 ≤ p → getStage p = Stage.fruiting) ∧
    getStage 25 = Stage.small ∧ getStage 95 = Stage.flowering ∧
    getStage 100 = Stage.fruiting := by
  refine ⟨?_, ?_, ?_, ?_, ?_, ?_, ?_, ?_, ?_, ?_⟩ <;>
    first
      | decide
      | (intro p h₁
         simp only [getStage]
         split_ifs <;> first | rfl | linarith)
      | (intro p h₁ h₂
         simp only [getStage]
         split_ifs <;> first | rfl | linarith)

/-- Witness for C1: the threshold table applied at concrete inputs in each
band and at the three named boundary points. -/
theorem getStage_threshold_table_witness :
    getStage 3 = Stage.seed ∧ getStage 17 = Stage.sprout ∧
    getStage 25 = Stage.small ∧ getStage 60 = Stage.medium ∧
    getStage 80 = Stage.large ∧ getStage 95 = Stage.flowering ∧
    getStage 100 = Stage.fruiting :=
  ⟨getStage_threshold_table.1 3 (by norm_num),
   getStage_threshold_table.2.1 17 (by norm_num) (by norm_num),
   getStage_threshold_table.2.2.1 25 (by norm_num) (by norm_num),
   getStage_threshold_table.2.2.2.1 60 (by norm_num) (by norm_num),
   getStage_threshold_table.2.2.2.2.1 80 (by norm_num) (by norm_num),
   getStage_threshold_table.2.2.2.2.2.1 95 (by norm_num) (by norm_num),
   getStage_threshold_table.2.2.2.2.2.2.1 100 (by norm_num)⟩

/-- C2: leafCount is floor(percentage / 20), hence non-decreasing in the
percentage, with leafCount 0 = 0, leafCount 100 = 5 and leafCount 150 = 7. -/
theorem leafCount_floor_div20 :
    (∀ p : ℚ, leafCount p = ⌊p / 20⌋) ∧
    (∀ p q : ℚ, p ≤ q → leafCount p ≤ leafCount q) ∧
    leafCount 0 = 0 ∧ leafCount 100 = 5 ∧ leafCount 150 = 7 := by
  refine ⟨fun p => rfl, fun p q hpq => ?_, by norm_num [leafCount],
    by norm_num [leafCount], ?_⟩
  · exact Int.floor_le_floor (by linarith)
  · show (⌊(150 : ℚ) / 20⌋ = 7)
    norm_num [Int.floor_eq_iff]

/-- Witness for C2: monotonicity of leafCount applied at 30 ≤ 100. -/
theorem leafCount_floor_div20_witness :
    leafCount 30 ≤ leafCount 100 :=
  leafCount_floor_div20.2.1 30 100 (by norm_num)

/-- C3: plantHeight = max(percentage * 0.8, 5) and
stemHeight = max(plantHeight * 0.6, 10); hence plantHeight ≥ 5 and
stemHeight ≥ 10 for every percentage ≥ 0, and plantHeight 0 = 5. -/
theorem plantHeight_stemHeight_spec :
    (∀ p : ℚ, getPlantHeight p = max (p * (8/10)) 5) ∧
    (∀ p : ℚ, stemHeight p = max (getPlantHeight p * (6/10)) 10) ∧
    (∀ p : ℚ, 0 ≤ p → 5 ≤ getPlantHeight p) ∧
    (∀ p : ℚ, 0 ≤ p → 10 ≤ stemHeight p) ∧
    getPlantHeight 0 = 5 := by
  refine ⟨fun p => rfl, fun p => rfl, fun p _ => le_max_right _ _,
    fun p _ => le_max_right _ _, by norm_num [getPlantHeight]⟩

/-- Witness for C3: the lower bounds applied at percentage 0. -/
theorem plantHeight_stemHeight_spec_witness :
    5 ≤ getPlantHeight 0 ∧ 10 ≤ stemHeight 0 :=
  ⟨plantHeight_stemHeight_spec.2.2.1 0 (by norm_num),
   plantHeight_stemHeight_spec.2.2.2.1 0 (by norm_num)⟩

/-- C4: getStage is monotone with respect to the stage ordering
seed < sprout < small < medium < large < flowering < fruiting. -/
theorem getStage_monotone (p₁ p₂ : ℚ) (h : p₁ ≤ p₂) :
    stageIdx (getStage p₁) ≤ stageIdx (getStage p₂) := by
  simp only [getStage]
  split_ifs <;> simp only [stageIdx] <;> first | rfl | omega | linarith

/-- Witness for C4: monotonicity applied at 24 ≤ 97. -/
theorem getStage_monotone_witness :
    stageIdx (getStage 24) ≤ stageIdx (getStage 97) :=
  getStage_monotone 24 97 (by norm_num)

/-- C5: the plant color is a fixed lookup on plantType, and every
plantType outside {rose, tulip, daisy} — "cactus" among them — yields the
same color as the omitted plantType (the sunflower default). -/
theorem getPlantColor_lookup :
    getPlantColor "rose" = "#ff6b9d" ∧
    getPlantColor "tulip" = "#c44569" ∧
    getPlantColor "daisy" = "#f8b500" ∧
    (∀ s : String, s ≠ "rose" → s ≠ "tulip" → s ≠ "daisy" →
      getPlantColor s = plantColorOfProp none) ∧
    getPlantColor "cactus" = plantColorOfProp none := by
  refine ⟨rfl, rfl, rfl, fun s h₁ h₂ h₃ => ?_, rfl⟩
  simp [getPlantColor, plantColorOfProp, h₁, h₂, h₃]

/-- Witness for C5: the fallback applied at the concrete string "cactus". -/
theorem getPlantColor_lookup_witness :
    getPlantColor "cactus" = plantColorOfProp none :=
  getPlantColor_lookup.2.2.2.1 "cactus" (by decide) (by decide) (by decide)

/-- C6: exactly 8 petals at 45-degree increments are rendered when the
stage is flowering or fruiting and none otherwise, and the fruit marker
is rendered exactly when the stage is fruiting. -/
theorem petals_and_fruit_gating (p : ℚ) :
    ((getStage p = Stage.flowering ∨ getStage p = Stage.fruiting) →
      petalAngles (getStage p) = [0, 45, 90, 135, 180, 225, 270, 315]) ∧
    (¬(getStage p = Stage.flowering ∨ getStage p = Stage.fruiting) →
      petalAngles (getStage p) = [] ∧ fruitRendered (getStage p) = false) ∧
    (fruitRendered (getStage p) = true ↔ getStage p = Stage.fruiting) := by
  refine ⟨fun h => ?_, fun h => ?_, ?_⟩
  · simp [petalAngles, h]
    decide
  · constructor
    · simp [petalAngles, h]
    · push_neg at h
      simp [fruitRendered, h.2]
  · cases hs : getStage p <;> simp [fruitRendered]

/-- Witness for C6: the gating applied at percentages 95 (flowering, petals
present) and 50 (medium, no petals, no fruit). -/
theorem petals_and_fruit_gating_witness :
    petalAngles (getStage 95) = [0, 45, 90, 135, 180, 225, 270, 315] ∧
    petalAngles (getStage 50) = [] ∧ fruitRendered (getStage 50) = false :=
  ⟨(petals_and_fruit_gating 95).1 (Or.inl (by norm_num [getStage])),
   (petals_and_fruit_gating 50).2.1 (by norm_num [getStage]; decide)⟩

/-- C7: the mapper is a total function of any percentage and any plantType:
it always yields the stage and every derived parameter, negative
percentages yield the seed stage, and unrecognized plantType strings yield
the same color as an omitted plantType. -/
theorem mapper_total (p : ℚ) (t : Option String) :
    (mapper p t).stage = getStage p ∧
    (mapper p t).plantHeight = getPlantHeight p ∧
    (mapper p t).stemH = stemHeight p ∧
    (mapper p t).leaves = leafCount p ∧
    (p < 0 → (mapper p t).stage = Stage.seed) ∧
    (∀ s : String, s ≠ "rose" → s ≠ "tulip" → s ≠ "daisy" →
      (mapper p (some s)).plantColor = (mapper p none).plantColor) := by
  refine ⟨rfl, rfl, rfl, rfl, fun hneg => ?_, fun s h₁ h₂ h₃ => ?_⟩
  · show getStage p = Stage.seed
    simp only [getStage]
    rw [if_pos (by linarith)]
  · show plantColorOfProp (some s) = plantColorOfProp none
    simp [plantColorOfProp, getPlantColor, h₁, h₂, h₃]

/-- Witness for C7: the mapper applied at percentage -3 with
plantType "cactus": stage seed, default color. -/
theorem mapper_total_witness :
    (mapper (-3) (some "cactus")).stage = Stage.seed ∧
    (mapper (-3) (some "cactus")).plantColor = (mapper (-3) none).plantColor :=
  ⟨(mapper_total (-3) (some "cactus")).2.2.2.2.1 (by norm_num),
   (mapper_total (-3) (some "cactus")).2.2.2.2.2 "cactus"
     (by decide) (by decide) (by decide)⟩

/-- C8: the stem element is rendered exactly when the stage is not seed:
for every percentage ≥ 10 the stem is present, and for every
percentage < 10 it is not. -/
theorem stem_gating (p : ℚ) :
    (stemRendered (getStage p) = true ↔ getStage p ≠ Stage.seed) ∧
    (10 ≤ p → stemRendered (getStage p) = true) ∧
    (p < 10 → stemRendered (getStage p) = false) := by
  refine ⟨?_, fun h => ?_, fun h => ?_⟩
  · cases hs : getStage p <;> simp [stemRendered]
  · simp only [getStage]
    split_ifs <;> first | (exfalso; linarith) | decide
  · simp only [getStage]
    rw [if_pos h]
    rfl

/-- Witness for C8: the stem gating applied at percentages 10 and 9. -/
theorem stem_gating_witness :
    stemRendered (getStage 10) = true ∧ stemRendered (getStage 9) = false :=
  ⟨(stem_gating 10).2.1 (by norm_num), (stem_gating 9).2.2 (by norm_num)⟩

/-- C9: the number of rendered leaf elements is max(floor(percentage/20), 0):
for negative percentages the computed leafCount is negative, but the list
built from a negative length is empty. -/
theorem renderedLeaves_count (p : ℚ) :
    ((renderedLeaves p).length : ℤ) = max (leafCount p) 0 ∧
    (p < 0 → leafCount p < 0 ∧ renderedLeaves p = []) := by
  constructor
  · simp [renderedLeaves, Int.toNat_eq_max]
  · intro hneg
    have hlc : leafCount p < 0 := by
      have h20 : p / 20 < ((0 : ℤ) : ℚ) := by push_cast; linarith
      exact Int.floor_lt.mpr h20
    exact ⟨hlc, by simp [renderedLeaves, Int.toNat_of_nonpos (le_of_lt hlc)]⟩

/-- Witness for C9: at percentage -7 the computed leafCount is negative and
no leaf element is rendered. -/
theorem renderedLeaves_count_witness :
    leafCount (-7) < 0 ∧ renderedLeaves (-7) = [] :=
  (renderedLeaves_count (-7)).2 (by norm_num)

/-- C10: three sparkle circles are rendered exactly when the percentage is
at least 25 — equivalently, when the stage is at least small in the stage
order — independent of plantType (sparkles take no plantType input). -/
theorem sparkles_gating (p : ℚ) :
    ((sparkles p).length = 3 ↔ 25 ≤ p) ∧
    ((sparkles p).length = 0 ↔ p < 25) ∧
    (25 ≤ p ↔ stageIdx Stage.small ≤ stageIdx (getStage p)) := by
  refine ⟨?_, ?_, ?_⟩
  · simp only [sparkles]
    split_ifs with h <;> simp [h]
  · simp only [sparkles]
    split_ifs with h <;> simp [h] <;> linarith
  · simp only [getStage]
    split_ifs <;> (simp only [stageIdx]
                   constructor <;> intro h <;> first | omega | linarith)

/-- Witness for C10: the sparkle gating applied at percentages 25 and 24. -/
theorem sparkles_gating_witness :
    (sparkles 25).length = 3 ∧ (sparkles 24).length = 0 :=
  ⟨(sparkles_gating 25).1.mpr (by norm_num),
   (sparkles_gating 24).2.1.mpr (by norm_num)⟩

end PlantViz
